import Mathlib

set_option linter.unusedVariables false

/-!
Verification development for the cyclone-physics-custom particle engine.

The definitions below are shallow embeddings of the C++ sources
(src/pcontacts.cpp, src/pfgen.cpp, src/plinks.cpp, src/pworld.cpp and the
headers under include/cyclone).  The scalar type `real` is modelled as `ℝ`.
The 3D vector library (core.h) and particle.cpp are not among the sources,
so those pieces are modelled from the specification, as marked.
-/

namespace Cyclone

/-- Modelled from the spec: the 3D vector primitive of the external math
library (core.h is not among the sources).  Components are reals. -/
structure Vector3 where
  x : ℝ
  y : ℝ
  z : ℝ

/-- Modelled from the spec: Vector3::clear sets all components to zero. -/
def Vector3.clear : Vector3 := ⟨0, 0, 0⟩

/-- Modelled from the spec: componentwise vector addition. -/
def Vector3.add (v w : Vector3) : Vector3 := ⟨v.x + w.x, v.y + w.y, v.z + w.z⟩

/-- Modelled from the spec: componentwise vector subtraction. -/
def Vector3.sub (v w : Vector3) : Vector3 := ⟨v.x - w.x, v.y - w.y, v.z - w.z⟩

/-- Modelled from the spec: scaling a vector by a scalar. -/
def Vector3.smul (v : Vector3) (s : ℝ) : Vector3 := ⟨v.x * s, v.y * s, v.z * s⟩

/-- Modelled from the spec: the dot (scalar) product of two vectors. -/
def Vector3.dot (v w : Vector3) : ℝ := v.x * w.x + v.y * w.y + v.z * w.z

/-- Modelled from the spec: the Euclidean magnitude of a vector. -/
noncomputable def Vector3.magnitude (v : Vector3) : ℝ :=
  Real.sqrt (v.x * v.x + v.y * v.y + v.z * v.z)

/-- Modelled from the spec: normalization scales a vector to unit length
when its magnitude is positive, and leaves it unchanged otherwise. -/
noncomputable def Vector3.normalise (v : Vector3) : Vector3 :=
  if 0 < v.magnitude then v.smul (1 / v.magnitude) else v

/-- Modelled from the spec: real_pow raises a real base to a real exponent. -/
noncomputable def real_pow (base exponent : ℝ) : ℝ := base ^ exponent

/-- Particle state, from include/cyclone/particle.h: inverse mass, damping,
position, velocity, constant acceleration and the transient force
accumulator. -/
structure Particle where
  inverseMass : ℝ
  damping : ℝ
  position : Vector3
  velocity : Vector3
  acceleration : Vector3
  forceAccum : Vector3

/-- Modelled from the spec: hasFiniteMass() returns inverseMass != 0
(particle.cpp is not among the sources; particle.h declares it). -/
def Particle.hasFiniteMass (p : Particle) : Prop := p.inverseMass ≠ 0

/-- Modelled from the spec: getMass() returns the reciprocal of the stored
inverse mass (glossary: inverse mass is the reciprocal of mass). -/
noncomputable def Particle.getMass (p : Particle) : ℝ := 1 / p.inverseMass

/-- Particle::addForce accumulates the given force into forceAccum
(modelled from the spec, particle.cpp being absent: addForce accumulates
into forceAccum, side effect only). -/
def Particle.addForce (p : Particle) (f : Vector3) : Particle :=
  { p with forceAccum := p.forceAccum.add f }

/-- Modelled from the spec: Particle::integrate (particle.cpp is not among
the sources).  No-op for non-positive duration; the data-model invariant
that an inverseMass == 0 particle never changes under integration forces
the infinite-mass guard.  Otherwise: position += velocity * duration;
velocity += (acceleration + forceAccum * inverseMass) * duration;
velocity *= damping ^ duration; the accumulator is cleared. -/
noncomputable def Particle.integrate (p : Particle) (duration : ℝ) : Particle :=
  if duration ≤ 0 then p
  else if p.inverseMass = 0 then p
  else
    let position := p.position.add (p.velocity.smul duration)
    let resultingAcceleration := p.acceleration.add (p.forceAccum.smul p.inverseMass)
    let velocity :=
      (p.velocity.add (resultingAcceleration.smul duration)).smul (p.damping ^ duration)
    { p with position := position, velocity := velocity, forceAccum := Vector3.clear }

/-- ParticleContact, from include/cyclone/pcontacts.h: two participants
(the second optional, for contacts with scenery), restitution, contact
normal, penetration depth and the per-particle movement outputs. -/
structure ParticleContact where
  particle0 : Particle
  particle1 : Option Particle
  restitution : ℝ
  contactNormal : Vector3
  penetration : ℝ
  particleMovement0 : Vector3
  particleMovement1 : Vector3

/-- ParticleContact::calculateSeparatingVelocity, from pcontacts.cpp
lines 20-25: the relative velocity projected onto the contact normal. -/
def ParticleContact.calculateSeparatingVelocity (c : ParticleContact) : ℝ :=
  let relativeVelocity :=
    match c.particle1 with
    | some p1 => c.particle0.velocity.sub p1.velocity
    | none => c.particle0.velocity
  relativeVelocity.dot c.contactNormal

/-- ParticleContact::resolveVelocity, from pcontacts.cpp lines 27-88,
transcribed exactly: in particular the update of particle[1] on line 86
scales the impulse by particle[0]'s inverse mass. -/
noncomputable def ParticleContact.resolveVelocity (c : ParticleContact) (duration : ℝ) :
    ParticleContact :=
  let separatingVelocity := c.calculateSeparatingVelocity
  if 0 < separatingVelocity then c
  else
    let newSepVelocity := -separatingVelocity * c.restitution
    let accelCausedVelocity :=
      match c.particle1 with
      | some p1 => c.particle0.acceleration.sub p1.acceleration
      | none => c.particle0.acceleration
    let accelCausedSepVelocity := accelCausedVelocity.dot c.contactNormal * duration
    let newSepVelocity :=
      if accelCausedSepVelocity < 0 then
        let adjusted := newSepVelocity + c.restitution * accelCausedSepVelocity
        if adjusted < 0 then 0 else adjusted
      else newSepVelocity
    let deltaVelocity := newSepVelocity - separatingVelocity
    let totalInverseMass :=
      c.particle0.inverseMass +
        (match c.particle1 with
         | some p1 => p1.inverseMass
         | none => 0)
    if totalInverseMass ≤ 0 then c
    else
      let impulse := deltaVelocity / totalInverseMass
      let impulsePerIMass := c.contactNormal.smul impulse
      match c.particle1 with
      | none =>
        { c with
          particle0 :=
            { c.particle0 with
              velocity :=
                c.particle0.velocity.add (impulsePerIMass.smul c.particle0.inverseMass) } }
      | some p1 =>
        { c with
          particle0 :=
            { c.particle0 with
              velocity :=
                c.particle0.velocity.add (impulsePerIMass.smul c.particle0.inverseMass) },
          particle1 :=
            some
              { p1 with
                velocity :=
                  p1.velocity.add (impulsePerIMass.smul (-c.particle0.inverseMass)) } }

/-- ParticleContact::resolveInterpenetration, from pcontacts.cpp lines
90-124, transcribed exactly: in particular particleMovement[1] on line 111
is movePerIMass scaled by particle[1]'s inverse mass, without negation. -/
noncomputable def ParticleContact.resolveInterpenetration (c : ParticleContact)
    (duration : ℝ) : ParticleContact :=
  if c.penetration ≤ 0 then c
  else
    let totalInverseMass :=
      c.particle0.inverseMass +
        (match c.particle1 with
         | some p1 => p1.inverseMass
         | none => 0)
    if totalInverseMass ≤ 0 then c
    else
      let movePerIMass := c.contactNormal.smul (c.penetration / totalInverseMass)
      let movement0 := movePerIMass.smul c.particle0.inverseMass
      match c.particle1 with
      | none =>
        { c with
          particleMovement0 := movement0,
          particleMovement1 := Vector3.clear,
          particle0 := { c.particle0 with position := c.particle0.position.add movement0 } }
      | some p1 =>
        let movement1 := movePerIMass.smul p1.inverseMass
        { c with
          particleMovement0 := movement0,
          particleMovement1 := movement1,
          particle0 := { c.particle0 with position := c.particle0.position.add movement0 },
          particle1 := some { p1 with position := p1.position.add movement1 } }

/-- ParticleContact::resolve, from pcontacts.cpp lines 14-18. -/
noncomputable def ParticleContact.resolve (c : ParticleContact) (duration : ℝ) :
    ParticleContact :=
  (c.resolveVelocity duration).resolveInterpenetration duration

/-- ParticleGravity, from include/cyclone/pfgen.h: holds the acceleration
due to gravity. -/
structure ParticleGravity where
  gravity : Vector3

/-- ParticleGravity::getGravity, from pfgen.cpp lines 113-116. -/
def ParticleGravity.getGravity (g : ParticleGravity) : Vector3 := g.gravity

/-- ParticleGravity::updateForce, from pfgen.cpp lines 57-64: skips
infinite-mass particles, otherwise adds gravity scaled by the mass. -/
noncomputable def ParticleGravity.updateForce (g : ParticleGravity) (particle : Particle)
    (duration : ℝ) : Particle :=
  if particle.inverseMass = 0 then particle
  else particle.addForce (g.gravity.smul particle.getMass)

/-- ParticlePointGravity, from include/cyclone/pfgen.h: a scalar strength
and the point of attraction. -/
structure ParticlePointGravity where
  gravityScalar : ℝ
  gravityPoint : Vector3

/-- ParticlePointGravity::updateForce, from pfgen.cpp lines 74-100: skips
infinite-mass particles; inside the 0.5 singularity guard it zeroes the
velocity and returns without touching the accumulator; otherwise it adds
the normalized direction scaled by gravityScalar * mass / dist^1.5. -/
noncomputable def ParticlePointGravity.updateForce (g : ParticlePointGravity)
    (particle : Particle) (duration : ℝ) : Particle :=
  if particle.inverseMass = 0 then particle
  else
    let particleToPoint := g.gravityPoint.sub particle.position
    let particleToPointDist := particleToPoint.magnitude
    if particleToPointDist < 0.5 then { particle with velocity := Vector3.clear }
    else
      let unitToPoint := particleToPoint.normalise
      let scaledPointGravity :=
        (unitToPoint.smul (g.gravityScalar * particle.getMass)).smul
          (1 / real_pow particleToPointDist 1.5)
      particle.addForce scaledPointGravity

/-- ParticleUplift, from include/cyclone/pfgen.h: the uplift force, the
center and radius of its area of effect, the maximum lift height and the
paired gravity generator. -/
structure ParticleUplift where
  upliftForce : Vector3
  upliftPoint : Vector3
  upliftRadius : ℝ
  maxUpliftHeight : ℝ
  gravity : ParticleGravity

/-- ParticleUplift::updateForce, from pfgen.cpp lines 118-142: skips
infinite-mass particles; returns untouched when the particle is outside
upliftRadius of upliftPoint; at or above maxUpliftHeight it zeroes the
velocity and adds the negated gravity force; below, it adds the
mass-scaled uplift force. -/
noncomputable def ParticleUplift.updateForce (u : ParticleUplift) (particle : Particle)
    (duration : ℝ) : Particle :=
  if particle.inverseMass = 0 then particle
  else
    let particlePosition := particle.position
    let particleToPoint := u.upliftPoint.sub particlePosition
    if u.upliftRadius < particleToPoint.magnitude then particle
    else if u.maxUpliftHeight ≤ particlePosition.y then
      ({ particle with velocity := Vector3.clear }).addForce
        (u.gravity.getGravity.smul (-1 * particle.getMass))
    else particle.addForce (u.upliftForce.smul particle.getMass)

/-- ParticleSpring, from include/cyclone/pfgen.h: the particle at the other
end, the spring constant and the rest length. -/
structure ParticleSpring where
  other : Particle
  springConstant : ℝ
  restLength : ℝ

/-- ParticleSpring::updateForce, from pfgen.cpp lines 153-169: the force is
the normalized separation vector scaled by -(magnitude - restLength) *
springConstant. -/
noncomputable def ParticleSpring.updateForce (s : ParticleSpring) (particle : Particle)
    (duration : ℝ) : Particle :=
  let force := particle.position.sub s.other.position
  let magnitude := force.magnitude
  let magnitude := (magnitude - s.restLength) * s.springConstant
  particle.addForce (force.normalise.smul (-magnitude))

/-- ParticleBungee, from include/cyclone/pfgen.h: the particle at the other
end, the spring constant and the rest length. -/
structure ParticleBungee where
  other : Particle
  springConstant : ℝ
  restLength : ℝ

/-- ParticleBungee::updateForce, from pfgen.cpp lines 208-226, transcribed
exactly: a no-op while the current length is at most restLength; otherwise
the magnitude is computed as (restLength - magnitude) * springConstant on
line 220 and the normalized separation vector is scaled by its negation. -/
noncomputable def ParticleBungee.updateForce (b : ParticleBungee) (particle : Particle)
    (duration : ℝ) : Particle :=
  let force := particle.position.sub b.other.position
  let magnitude := force.magnitude
  if magnitude ≤ b.restLength then particle
  else
    let magnitude := (b.restLength - magnitude) * b.springConstant
    particle.addForce (force.normalise.smul (-magnitude))

/-- ParticleBuoyancy, from include/cyclone/pfgen.h: maximum submersion
depth, object volume, water plane height and liquid density. -/
structure ParticleBuoyancy where
  maxDepth : ℝ
  volume : ℝ
  waterHeight : ℝ
  liquidDensity : ℝ

/-- ParticleBuoyancy::updateForce, from pfgen.cpp lines 238-264, transcribed
exactly: no force at or above waterHeight + maxDepth; the full force
(0, liquidDensity * volume, 0) at or below waterHeight - maxDepth; otherwise
a y force of liquidDensity * volume * (depth - maxDepth - waterHeight) /
(2 * maxDepth), as written on line 262. -/
noncomputable def ParticleBuoyancy.updateForce (b : ParticleBuoyancy) (particle : Particle)
    (duration : ℝ) : Particle :=
  let depth := particle.position.y
  if b.waterHeight + b.maxDepth ≤ depth then particle
  else if depth ≤ b.waterHeight - b.maxDepth then
    particle.addForce ⟨0, b.liquidDensity * b.volume, 0⟩
  else
    particle.addForce
      ⟨0, b.liquidDensity * b.volume * (depth - b.maxDepth - b.waterHeight) / (2 * b.maxDepth), 0⟩

/-- ParticleRod, from include/cyclone/plinks.h: the linked pair of particles
and the rod's configured length. -/
structure ParticleRod where
  particle0 : Particle
  particle1 : Particle
  length : ℝ

/-- ParticleLink::currentLength, from plinks.cpp lines 14-18: the magnitude
of the difference of the two particle positions. -/
noncomputable def ParticleRod.currentLength (rod : ParticleRod) : ℝ :=
  (rod.particle0.position.sub rod.particle1.position).magnitude

/-- ParticleRod::addContact, from plinks.cpp lines 43-77, transcribed
exactly.  Line 49 reads `if (currentLen = length) return 0;`: the
assignment overwrites currentLen with the configured length, and the
condition tests that assigned value against zero, so the function returns
0 whenever length is nonzero; when length is zero it falls through with
currentLen equal to length and takes the compression branch. -/
noncomputable def ParticleRod.addContact (rod : ParticleRod) (limit : ℕ) :
    ℕ × Option ParticleContact :=
  let currentLen := rod.currentLength
  let currentLen := rod.length
  if currentLen ≠ 0 then (0, none)
  else
    let normal := (rod.particle1.position.sub rod.particle0.position).normalise
    if rod.length < currentLen then
      (1, some
        { particle0 := rod.particle0
          particle1 := some rod.particle1
          restitution := 0
          contactNormal := normal
          penetration := currentLen - rod.length
          particleMovement0 := Vector3.clear
          particleMovement1 := Vector3.clear })
    else
      (1, some
        { particle0 := rod.particle0
          particle1 := some rod.particle1
          restitution := 0
          contactNormal := normal.smul (-1)
          penetration := rod.length - currentLen
          particleMovement0 := Vector3.clear
          particleMovement1 := Vector3.clear })

/-- ParticleWorld for the purposes of contact generation, from
include/cyclone/pworld.h: the registered contact generators (each mapped
to the count of contacts it would write under a given limit) and the
capacity of the pre-allocated contact buffer. -/
structure ParticleWorld where
  contactGenerators : List (ℕ → ℕ)
  maxContacts : ℕ

/-- ParticleWorld::generateContacts, from pworld.cpp lines 13-19,
transcribed exactly: the body initializes its locals and returns 0 without
invoking any registered generator. -/
def ParticleWorld.generateContacts (w : ParticleWorld) : ℕ :=
  let limit := w.maxContacts
  0

/-- Modelled from the spec: the contact-generation loop that pworld.h
documents and section 4.5 describes (invoke every registered generator in
turn, pass the remaining capacity as the limit, accumulate the total and
stop once the buffer is full); pworld.cpp leaves this loop unwritten. -/
def generateContactsLoop : List (ℕ → ℕ) → ℕ → ℕ
  | [], _ => 0
  | g :: rest, limit =>
    if limit = 0 then 0
    else
      let used := g limit
      used + generateContactsLoop rest (limit - used)

/-- Modelled from the spec: ParticleWorld::generateContacts as documented,
running the generator loop over the whole buffer capacity. -/
def ParticleWorld.generateContactsSpec (w : ParticleWorld) : ℕ :=
  generateContactsLoop w.contactGenerators w.maxContacts

/-- A force registration, from include/cyclone/pfgen.h: the particle and
the generator of one association.  Both references are modelled by
identifiers, since the registry compares them by pointer identity. -/
structure ParticleForceRegistration where
  particle : ℕ
  fg : ℕ
deriving DecidableEq

/-- The condition of pfgen.cpp line 27: the registration matches both the
given particle and the given generator. -/
def regMatches (particle fg : ℕ) (r : ParticleForceRegistration) : Bool :=
  r.particle == particle && r.fg == fg

/-- ParticleForceRegistry::remove, from pfgen.cpp lines 22-35: walk the
registration list and erase the first entry matching both the particle and
the generator, leaving the rest untouched. -/
def registryRemove (particle fg : ℕ) :
    List ParticleForceRegistration → List ParticleForceRegistration
  | [] => []
  | r :: rest =>
    if regMatches particle fg r then rest
    else r :: registryRemove particle fg rest

/-- ParticleForceRegistry::updateForces, from pfgen.cpp lines 42-49: walk
the registration list in order, invoking each generator on its particle.
This definition records the sequence of (particle, generator) invocations
that walk performs. -/
def registryUpdateForcesTrace (registrations : List ParticleForceRegistration) :
    List (ℕ × ℕ) :=
  registrations.map (fun r => (r.particle, r.fg))

/-- Test input: a finite-mass particle closing along the x axis. -/
def particleA : Particle :=
  { inverseMass := 1, damping := 1, position := ⟨0, 0, 0⟩, velocity := ⟨-1, 0, 0⟩,
    acceleration := ⟨0, 0, 0⟩, forceAccum := ⟨0, 0, 0⟩ }

/-- Test input: an infinite-mass (inverseMass 0) particle at rest. -/
def particleB1 : Particle :=
  { inverseMass := 0, damping := 1, position := ⟨1, 0, 0⟩, velocity := ⟨0, 0, 0⟩,
    acceleration := ⟨0, 0, 0⟩, forceAccum := ⟨0, 0, 0⟩ }

/-- Test input: a contact between a finite-mass particle[0] and an
infinite-mass particle[1], closing at speed 1 along the normal. -/
def contact1 : ParticleContact :=
  { particle0 := particleA, particle1 := some particleB1, restitution := 1,
    contactNormal := ⟨1, 0, 0⟩, penetration := 0,
    particleMovement0 := ⟨0, 0, 0⟩, particleMovement1 := ⟨0, 0, 0⟩ }

/-- Test input: a finite-mass particle with inverse mass 3, at rest. -/
def particleD : Particle :=
  { inverseMass := 3, damping := 1, position := ⟨1, 0, 0⟩, velocity := ⟨0, 0, 0⟩,
    acceleration := ⟨0, 0, 0⟩, forceAccum := ⟨0, 0, 0⟩ }

/-- Test input: a closing contact between particles of inverse mass 1 and 3
with restitution 0. -/
def contact2 : ParticleContact :=
  { particle0 := particleA, particle1 := some particleD, restitution := 0,
    contactNormal := ⟨1, 0, 0⟩, penetration := 0,
    particleMovement0 := ⟨0, 0, 0⟩, particleMovement1 := ⟨0, 0, 0⟩ }

/-- Test input: a resting particle of inverse mass 1 at the origin. -/
def particleE : Particle :=
  { inverseMass := 1, damping := 1, position := ⟨0, 0, 0⟩, velocity := ⟨0, 0, 0⟩,
    acceleration := ⟨0, 0, 0⟩, forceAccum := ⟨0, 0, 0⟩ }

/-- Test input: a resting particle of inverse mass 1 at (1,0,0). -/
def particleF : Particle :=
  { inverseMass := 1, damping := 1, position := ⟨1, 0, 0⟩, velocity := ⟨0, 0, 0⟩,
    acceleration := ⟨0, 0, 0⟩, forceAccum := ⟨0, 0, 0⟩ }

/-- Test input: a penetrating contact (depth 1 along the x normal) between
two particles of equal inverse mass 1. -/
def contact3 : ParticleContact :=
  { particle0 := particleE, particle1 := some particleF, restitution := 0,
    contactNormal := ⟨1, 0, 0⟩, penetration := 1,
    particleMovement0 := ⟨0, 0, 0⟩, particleMovement1 := ⟨0, 0, 0⟩ }

/-- Test input: a resting particle of inverse mass 1 at (2,0,0). -/
def particleG : Particle :=
  { inverseMass := 1, damping := 1, position := ⟨2, 0, 0⟩, velocity := ⟨0, 0, 0⟩,
    acceleration := ⟨0, 0, 0⟩, forceAccum := ⟨0, 0, 0⟩ }

/-- Test input: a rod of configured length 1 whose particles are currently
2 apart, so the rod is stretched and should report one contact. -/
def rod4 : ParticleRod :=
  { particle0 := particleE, particle1 := particleG, length := 1 }

/-- Test input: a world with buffer capacity 4 and one registered contact
generator that writes one contact whenever its limit allows it. -/
def world5 : ParticleWorld :=
  { contactGenerators := [fun limit => if 1 ≤ limit then 1 else 0], maxContacts := 4 }

/-- Test input: a bungee of rest length 1 and unit spring constant anchored
to the particle at the origin. -/
def bungee6 : ParticleBungee :=
  { other := particleE, springConstant := 1, restLength := 1 }

/-- Test input: a spring with the same parameters as bungee6. -/
def spring6 : ParticleSpring :=
  { other := particleE, springConstant := 1, restLength := 1 }

/-- Test input: a buoyancy generator with maxDepth 1, volume 1, water plane
at height 0 and liquid density 2. -/
def buoy7 : ParticleBuoyancy :=
  { maxDepth := 1, volume := 1, waterHeight := 0, liquidDensity := 2 }

/-- Test input: a point-gravity generator of strength 2 attracting toward
the point (1,0,0). -/
def pointGravity9 : ParticlePointGravity :=
  { gravityScalar := 2, gravityPoint := ⟨1, 0, 0⟩ }

/-- Test input: an uplift generator of radius 1 centred at the origin, with
maximum lift height 10 and a paired downward gravity generator. -/
def uplift10 : ParticleUplift :=
  { upliftForce := ⟨0, 1, 0⟩, upliftPoint := ⟨0, 0, 0⟩, upliftRadius := 1,
    maxUpliftHeight := 10, gravity := { gravity := ⟨0, -10, 0⟩ } }

end Cyclone

namespace Cyclone

/-- The magnitude of an x-axis-aligned vector is the absolute value of its
x component. -/
theorem magnitude_axis (a : ℝ) : (Vector3.mk a 0 0).magnitude = |a| := by
  have h : (Vector3.mk a 0 0).magnitude = Real.sqrt (a * a) := by
    simp [Vector3.magnitude]
  rw [h, Real.sqrt_mul_self_eq_abs]

/-- Composing two scalings multiplies the scalars. -/
theorem smul_smul_eq (v : Vector3) (a b : ℝ) : (v.smul a).smul b = v.smul (a * b) := by
  simp [Vector3.smul, mul_assoc]

/-- Claim C1: the invariant fails in the code.  In resolveVelocity the
impulse applied to particle[1] is scaled by particle[0]'s inverse mass
(pcontacts.cpp line 86), so an infinite-mass particle[1] (inverse mass 0)
that starts at rest acquires velocity (-2,0,0) from the concrete closing
contact contact1, contradicting the claim that a particle with
inverseMass == 0 never changes velocity under impulse application. -/
theorem C1_resolveVelocity_moves_infinite_mass_particle1 :
    particleB1.inverseMass = 0
    ∧ particleB1.velocity = ⟨0, 0, 0⟩
    ∧ (contact1.resolveVelocity 1).particle1.map Particle.velocity = some ⟨-2, 0, 0⟩ := by
  refine ⟨rfl, rfl, ?_⟩
  norm_num [contact1, particleA, particleB1, ParticleContact.resolveVelocity,
    ParticleContact.calculateSeparatingVelocity, Vector3.dot, Vector3.sub, Vector3.add,
    Vector3.smul, Vector3.mk.injEq, Option.map]

/-- Claim C2: on the concrete contact contact2 (inverse masses 1 and 3,
closing speed 1, restitution 0, so impulse = 1/4) the code gives
particle[0] the claimed velocity change impulse * normal * inverseMass0,
but particle[1]'s change is the negated impulse scaled by particle[0]'s
inverse mass (pcontacts.cpp line 86), yielding velocity (-1/4,0,0) instead
of the claimed (-3/4,0,0). -/
theorem C2_particle1_impulse_scaled_by_wrong_inverse_mass :
    (contact2.resolveVelocity 1).particle0.velocity = ⟨-1 + 1 / 4, 0, 0⟩
    ∧ (contact2.resolveVelocity 1).particle1.map Particle.velocity = some ⟨-(1 / 4), 0, 0⟩
    ∧ (-(1 / 4) : ℝ) ≠ -(3 / 4) := by
  refine ⟨?_, ?_, by norm_num⟩ <;>
  norm_num [contact2, particleA, particleD, ParticleContact.resolveVelocity,
    ParticleContact.calculateSeparatingVelocity, Vector3.dot, Vector3.sub, Vector3.add,
    Vector3.smul, Vector3.mk.injEq, Option.map]

/-- Claim C3: in resolveInterpenetration, particleMovement[1] is
movePerInverseMass scaled by particle[1]'s inverse mass without negation
(pcontacts.cpp line 111), so on the concrete contact contact3 (penetration
1, equal inverse masses, normal (1,0,0), positions 0 and 1 on the x axis)
both particles move in the +normal direction: particle[1] ends at
(3/2,0,0) rather than the claimed (1/2,0,0), and the separation of the
participants is unchanged rather than grown. -/
theorem C3_interpenetration_moves_particles_same_direction :
    (contact3.resolveInterpenetration 1).particle0.position = ⟨1 / 2, 0, 0⟩
    ∧ (contact3.resolveInterpenetration 1).particle1.map Particle.position
        = some ⟨3 / 2, 0, 0⟩
    ∧ (contact3.resolveInterpenetration 1).particleMovement1 = ⟨1 / 2, 0, 0⟩
    ∧ ((3 : ℝ) / 2) ≠ 1 / 2 := by
  refine ⟨?_, ?_, ?_, by norm_num⟩ <;>
  norm_num [contact3, particleE, particleF, ParticleContact.resolveInterpenetration,
    Vector3.sub, Vector3.add, Vector3.smul, Vector3.mk.injEq, Option.map]

/-- Claim C4: on the concrete rod rod4 the particles are distance 2 apart
while the configured length is 1, yet addContact returns 0 and writes no
contact: line 49 of plinks.cpp assigns instead of comparing, so every rod
of nonzero configured length reports no contact, contrary to the claim
that a length mismatch yields one contact with penetration 1. -/
theorem C4_rod_addContact_swallows_contacts :
    rod4.currentLength = 2 ∧ rod4.length = 1 ∧ rod4.addContact 1 = (0, none) := by
  refine ⟨?_, rfl, ?_⟩
  · have h : rod4.particle0.position.sub rod4.particle1.position = Vector3.mk (-2) 0 0 := by
      norm_num [rod4, particleE, particleG, Vector3.sub, Vector3.mk.injEq]
    rw [ParticleRod.currentLength, h, magnitude_axis]
    norm_num
  · norm_num [ParticleRod.addContact, rod4]

/-- Claim C5: ParticleWorld::generateContacts in pworld.cpp is an
unfinished stub: on the concrete world world5, whose single registered
generator would write one contact under any positive limit, it returns 0
without invoking the generator, while the loop pworld.h documents (and the
spec describes), modelled by generateContactsSpec, returns 1. -/
theorem C5_generateContacts_stub_ignores_generators :
    world5.generateContacts = 0 ∧ world5.generateContactsSpec = 1 := by
  constructor
  · rfl
  · norm_num [world5, ParticleWorld.generateContactsSpec, generateContactsLoop]

/-- Claim C6: on the concrete stretched configuration (particle at (2,0,0),
other endpoint at the origin, rest length 1, unit spring constant) the
bungee adds the force (1,0,0), pointing from the other endpoint toward the
particle (pushing it further away), whereas a spring with identical
parameters adds (-1,0,0), pulling the particle back: lines 220-224 of
pfgen.cpp negate the spring formula, so the bungee force is the negation
of the claimed Hookean pull. -/
theorem C6_bungee_pushes_when_stretched :
    (bungee6.updateForce particleG 1).forceAccum = ⟨1, 0, 0⟩
    ∧ (spring6.updateForce particleG 1).forceAccum = ⟨-1, 0, 0⟩ := by
  constructor <;>
  norm_num [ParticleBungee.updateForce, ParticleSpring.updateForce, bungee6, spring6,
    particleG, particleE, Vector3.sub, Vector3.normalise, Vector3.smul, Vector3.add,
    Particle.addForce, magnitude_axis, Vector3.mk.injEq]

/-- Claim C7: on the concrete generator buoy7 (maxDepth 1, volume 1, water
height 0, liquid density 2) and a particle at height y = 0, strictly
between waterHeight - maxDepth and waterHeight + maxDepth, the code adds
the downward force (0,-1,0) (pfgen.cpp line 262), while the claimed
interpolation liquidDensity * volume * (waterHeight + maxDepth - y) /
(2 * maxDepth) evaluates to +1. -/
theorem C7_partial_submersion_force_is_downward :
    (buoy7.updateForce particleE 1).forceAccum = ⟨0, -1, 0⟩
    ∧ buoy7.liquidDensity * buoy7.volume *
        (buoy7.waterHeight + buoy7.maxDepth - particleE.position.y) / (2 * buoy7.maxDepth)
        = 1 := by
  constructor <;>
  norm_num [ParticleBuoyancy.updateForce, buoy7, particleE, Particle.addForce,
    Vector3.add, Vector3.mk.injEq]

/-- A registration matches the removal key exactly when both its fields
agree with it. -/
theorem regMatches_eq_true_iff (p g : ℕ) (r : ParticleForceRegistration) :
    regMatches p g r = true ↔ r.particle = p ∧ r.fg = g := by
  simp [regMatches]

/-- Membership in the updateForces invocation trace means some registration
in the list carries exactly that particle and generator. -/
theorem mem_trace_iff (p g : ℕ) (l : List ParticleForceRegistration) :
    (p, g) ∈ registryUpdateForcesTrace l ↔ ∃ r ∈ l, r.particle = p ∧ r.fg = g := by
  simp [registryUpdateForcesTrace, List.mem_map, Prod.ext_iff, eq_comm]

/-- Claim C8 (counterexample): with the pair (1,2) registered twice, remove
deletes only the first matching association, and updateForces still
invokes generator 2 on particle 1 afterwards, so the claim that remove
stops every future invocation of g on p fails on duplicate
registrations. -/
theorem C8_remove_leaves_duplicate_invocation :
    registryRemove 1 2 [⟨1, 2⟩, ⟨1, 2⟩] = [⟨1, 2⟩]
    ∧ (1, 2) ∈ registryUpdateForcesTrace (registryRemove 1 2 [⟨1, 2⟩, ⟨1, 2⟩]) := by
  decide

/-- Claim C8 (amended): for every registry, when some association matches
(p, g), remove deletes exactly the first such association: the list splits
as l1 ++ r :: l2 with no match in l1 and r matching, and the result is
l1 ++ l2, so every other association — including any further duplicate
(p, g) registrations inside l2 — is preserved in its original registration
order; remove is a no-op when no (p, g) association is registered; and
when (p, g) is registered at most once, subsequent updateForces calls
never invoke g on p. -/
theorem C8_remove_first_match_preserves_others (p g : ℕ)
    (l : List ParticleForceRegistration) :
    ((∃ r ∈ l, regMatches p g r = true) →
      ∃ l1 r l2, (∀ x ∈ l1, regMatches p g x = false) ∧ regMatches p g r = true
        ∧ l = l1 ++ r :: l2 ∧ registryRemove p g l = l1 ++ l2)
    ∧ ((∀ r ∈ l, regMatches p g r = false) → registryRemove p g l = l)
    ∧ (l.countP (regMatches p g) ≤ 1 →
        (p, g) ∉ registryUpdateForcesTrace (registryRemove p g l)) := by
  induction l with
  | nil =>
    refine ⟨?_, ?_, ?_⟩
    · rintro ⟨r, hr, _⟩
      exact absurd hr (List.not_mem_nil r)
    · intro _
      rfl
    · intro _
      simp [registryRemove, registryUpdateForcesTrace]
  | cons a rest ih =>
    obtain ⟨ih1, ih2, ih3⟩ := ih
    by_cases hm : regMatches p g a = true
    · refine ⟨?_, ?_, ?_⟩
      · intro _
        refine ⟨[], a, rest, by simp, hm, by simp, ?_⟩
        rw [registryRemove, if_pos hm]
        rfl
      · intro h
        exact absurd (h a (List.mem_cons_self a rest)) (by simp [hm])
      · intro hcount
        rw [List.countP_cons, if_pos hm] at hcount
        have hrest : rest.countP (regMatches p g) = 0 := by omega
        rw [registryRemove, if_pos hm, mem_trace_iff]
        rintro ⟨x, hx, hxe⟩
        exact List.countP_eq_zero.mp hrest x hx ((regMatches_eq_true_iff p g x).mpr hxe)
    · have hmf : regMatches p g a = false := by
        revert hm
        cases regMatches p g a <;> simp
      refine ⟨?_, ?_, ?_⟩
      · rintro ⟨r, hr, hrm⟩
        rcases List.mem_cons.mp hr with hhead | htail
        · exact absurd (hhead ▸ hrm) hm
        · obtain ⟨l1, r1, l2, h1, h2, h3, h4⟩ := ih1 ⟨r, htail, hrm⟩
          refine ⟨a :: l1, r1, l2, ?_, h2, ?_, ?_⟩
          · intro x hx
            rcases List.mem_cons.mp hx with hxa | hx2
            · exact hxa ▸ hmf
            · exact h1 x hx2
          · rw [h3]
            rfl
          · rw [registryRemove, if_neg hm, h4]
            rfl
      · intro h
        rw [registryRemove, if_neg hm,
          ih2 (fun x hx => h x (List.mem_cons_of_mem a hx))]
      · intro hcount
        rw [List.countP_cons, if_neg hm] at hcount
        rw [registryRemove, if_neg hm, mem_trace_iff]
        rintro ⟨x, hx, hxe⟩
        rcases List.mem_cons.mp hx with rfl | htail
        · exact hm ((regMatches_eq_true_iff p g x).mpr hxe)
        · exact (mem_trace_iff p g (registryRemove p g rest)).not.mp (ih3 (by omega))
            ⟨x, htail, hxe⟩

/-- Witness for the amended C8 theorem: on the registry
[(1,2), (1,2), (3,4)], which registers (1,2) twice, the theorem yields the
first-match decomposition whose remainder keeps the duplicate; and on the
registry [(1,2), (3,4)], where (1,2) is registered once, it yields that
the invocation trace after remove(1,2) no longer contains (1,2). -/
theorem C8_remove_first_match_preserves_others_witness :
    (∃ l1 r l2, (∀ x ∈ l1, regMatches 1 2 x = false) ∧ regMatches 1 2 r = true
      ∧ ([⟨1, 2⟩, ⟨1, 2⟩, ⟨3, 4⟩] : List ParticleForceRegistration) = l1 ++ r :: l2
      ∧ registryRemove 1 2 [⟨1, 2⟩, ⟨1, 2⟩, ⟨3, 4⟩] = l1 ++ l2)
    ∧ ((1, 2) ∉ registryUpdateForcesTrace (registryRemove 1 2 [⟨1, 2⟩, ⟨3, 4⟩])) :=
  ⟨(C8_remove_first_match_preserves_others 1 2 [⟨1, 2⟩, ⟨1, 2⟩, ⟨3, 4⟩]).1
      ⟨⟨1, 2⟩, by decide, by decide⟩,
   (C8_remove_first_match_preserves_others 1 2 [⟨1, 2⟩, ⟨3, 4⟩]).2.2 (by decide)⟩

/-- Claim C9: point gravity on a finite-mass particle: inside the 0.5
singularity guard updateForce only zeroes the velocity, adding no force
and never reaching the normalization or the division by the distance;
at distance at least 0.5 it adds to the accumulator the unit vector from
the particle toward the attraction point scaled by
gravityScalar * mass / distance^1.5, touching nothing else. -/
theorem C9_pointGravity_guard_and_force (g : ParticlePointGravity) (particle : Particle)
    (duration : ℝ) (h1 : particle.hasFiniteMass) :
    ((g.gravityPoint.sub particle.position).magnitude < 0.5 →
      g.updateForce particle duration = { particle with velocity := Vector3.clear })
    ∧ (0.5 ≤ (g.gravityPoint.sub particle.position).magnitude →
      g.updateForce particle duration =
        particle.addForce
          (((g.gravityPoint.sub particle.position).smul
              (1 / (g.gravityPoint.sub particle.position).magnitude)).smul
            (g.gravityScalar * particle.getMass /
              real_pow (g.gravityPoint.sub particle.position).magnitude 1.5))) := by
  have hmass : ¬(particle.inverseMass = 0) := h1
  constructor
  · intro hd
    simp only [ParticlePointGravity.updateForce]
    rw [if_neg hmass, if_pos hd]
  · intro hd
    have hpos : 0 < (g.gravityPoint.sub particle.position).magnitude :=
      lt_of_lt_of_le (by norm_num) hd
    simp only [ParticlePointGravity.updateForce]
    rw [if_neg hmass, if_neg (not_lt.mpr hd)]
    simp only [Vector3.normalise]
    rw [if_pos hpos, smul_smul_eq, smul_smul_eq, smul_smul_eq]
    congr 1
    ring_nf

/-- Witness for C9: the finite-mass particle at the origin sits at distance
1 from the attraction point of pointGravity9, so the force branch applies
and adds exactly (2,0,0) to the accumulator. -/
theorem C9_pointGravity_guard_and_force_witness :
    particleE.hasFiniteMass
    ∧ (pointGravity9.updateForce particleE 1).forceAccum = ⟨2, 0, 0⟩ := by
  have h1 : particleE.hasFiniteMass := by
    simp [Particle.hasFiniteMass, particleE]
  refine ⟨h1, ?_⟩
  have hv : pointGravity9.gravityPoint.sub particleE.position = Vector3.mk 1 0 0 := by
    norm_num [pointGravity9, particleE, Vector3.sub, Vector3.mk.injEq]
  have hd : (pointGravity9.gravityPoint.sub particleE.position).magnitude = 1 := by
    rw [hv, magnitude_axis]
    norm_num
  have h := (C9_pointGravity_guard_and_force pointGravity9 particleE 1 h1).2
    (by rw [hd]; norm_num)
  rw [h, hd, hv]
  norm_num [Particle.addForce, Vector3.add, Vector3.smul, Particle.getMass, particleE,
    pointGravity9, real_pow, Real.one_rpow, Vector3.mk.injEq]

/-- Claim C10: the radius guard of ParticleUplift::updateForce returns the
particle untouched (no force, no velocity or position change) for every
finite-mass particle farther than upliftRadius from upliftPoint, whatever
its height. -/
theorem C10_uplift_noop_outside_radius (u : ParticleUplift) (particle : Particle)
    (duration : ℝ) (h1 : particle.hasFiniteMass)
    (h2 : u.upliftRadius < (u.upliftPoint.sub particle.position).magnitude) :
    u.updateForce particle duration = particle := by
  have hmass : ¬(particle.inverseMass = 0) := h1
  simp only [ParticleUplift.updateForce]
  rw [if_neg hmass, if_pos h2]

/-- Witness for C10: the finite-mass particle at (2,0,0) — below the
maximum uplift height 10 — is at distance 2 from the uplift point, beyond
the radius 1, and updateForce leaves it unchanged. -/
theorem C10_uplift_noop_outside_radius_witness :
    particleG.hasFiniteMass
    ∧ uplift10.upliftRadius < (uplift10.upliftPoint.sub particleG.position).magnitude
    ∧ particleG.position.y < uplift10.maxUpliftHeight
    ∧ uplift10.updateForce particleG 1 = particleG := by
  have h1 : particleG.hasFiniteMass := by
    simp [Particle.hasFiniteMass, particleG]
  have hv : uplift10.upliftPoint.sub particleG.position = Vector3.mk (-2) 0 0 := by
    norm_num [uplift10, particleG, Vector3.sub, Vector3.mk.injEq]
  have h2 : uplift10.upliftRadius < (uplift10.upliftPoint.sub particleG.position).magnitude := by
    rw [hv, magnitude_axis]
    norm_num [uplift10]
  refine ⟨h1, h2, ?_, C10_uplift_noop_outside_radius uplift10 particleG 1 h1 h2⟩
  norm_num [uplift10, particleG]

end Cyclone
